import Mathlib

/-!
Verification of the patent-intelligence repository.

Shallow embedding of the pure computational core of the repository:

* `src/pipeline/expiration_calc.py` — expiration dates, maintenance fee
  schedules, patent status;
* `src/services/whitespace_service.py` — coverage growth rate and
  white-space opportunity classification;
* `src/ai/search_service.py` — full-text / semantic / hybrid search with
  Reciprocal Rank Fusion;
* `src/services/citation_service.py` — bounded BFS over the citation graph.

Calendar dates are represented by their proleptic-Gregorian ordinal
(Python `date.toordinal`: 0001-01-01 is day 1), as integers; `timedelta`
arithmetic on whole days is integer addition.  Python `float` arithmetic
appearing in the sources is carried out over `ℚ`; wherever the source
truncates a float with `int(...)` the operand is exactly representable or
far from an integer boundary, so `pyInt` (T-division) over `ℚ` computes
the same value (the concrete instances are noted at their definitions).
-/

namespace PatentIntel

/-- Gregorian leap-year test. -/
def isLeapYear (y : ℕ) : Bool :=
  (y % 4 == 0 && y % 100 != 0) || y % 400 == 0

/-- Length of month `m` (1–12) of year `y`. -/
def daysInMonth (y m : ℕ) : ℕ :=
  if m = 2 then (if isLeapYear y then 29 else 28)
  else if m = 4 ∨ m = 6 ∨ m = 9 ∨ m = 11 then 30
  else 31

/-- Days of year `y` strictly before the first day of month `m`. -/
def daysBeforeMonth (y m : ℕ) : ℕ :=
  (List.range (m - 1)).foldl (fun s i => s + daysInMonth y (i + 1)) 0

/-- Proleptic Gregorian ordinal of `y-m-d`, as Python `date.toordinal`
(0001-01-01 ↦ 1). -/
def toOrdinal (y m d : ℕ) : ℤ :=
  (((y - 1) * 365 + (y - 1) / 4 + (y - 1) / 400 + daysBeforeMonth y m + d
      - (y - 1) / 100 : ℕ) : ℤ)

/-! ## `src/pipeline/expiration_calc.py` -/

def STANDARD_TERM_YEARS : ℤ := 20

def DESIGN_TERM_YEARS : ℤ := 15

/-- ASCII lowercase of a character (`str.lower()` restricted to ASCII,
which covers every patent-type string the pipeline handles). -/
def charLower (c : Char) : Char :=
  if 65 ≤ c.toNat ∧ c.toNat ≤ 90 then Char.ofNat (c.toNat + 32) else c

/-- `s.lower()` for ASCII strings. -/
def strLower (s : String) : String := ⟨s.data.map charLower⟩

/-- `(patent_type or "").lower() in ("design", "des")`. -/
def isDesignType (patent_type : Option String) : Bool :=
  let lower := strLower (patent_type.getD "")
  lower == "design" || lower == "des"

/-- `calculate_expiration_date` (expiration_calc.py lines 15–68).
Dates are ordinals (`Option ℤ`); `None` inputs/outputs are `none`. -/
def calculate_expiration_date (filing_date grant_date : Option ℤ)
    (patent_type : Option String) (pta_days pte_days : ℤ)
    (terminal_disclaimer_date : Option ℤ) : Option ℤ :=
  if filing_date.isNone && grant_date.isNone then none
  else if isDesignType patent_type then
    match grant_date with
    | none => none
    | some g => some (g + DESIGN_TERM_YEARS * 365)
  else
    -- utility / plant / anything non-design: 20 years from filing
    let base? : Option ℤ :=
      match filing_date with
      | none =>
        match grant_date with
        | some g => some ((g - 3 * 365) + STANDARD_TERM_YEARS * 365)
        | none => none
      | some f => some (f + STANDARD_TERM_YEARS * 365)
    match base? with
    | none => none
    | some b0 =>
      let b1 := if pta_days > 0 then b0 + pta_days else b0
      let b2 := if pte_days > 0 then b1 + pte_days else b1
      match terminal_disclaimer_date with
      | some td => if td < b2 then some td else some b2
      | none => some b2

/-- One maintenance-fee window produced by `calculate_maintenance_fee_dates`. -/
structure FeeWindow where
  fee_year : ℤ
  label : String
  due_date : ℤ
  grace_period_end : ℤ
  window_open : ℤ
deriving Repr, DecidableEq

def MAINTENANCE_FEE_YEARS : List ℚ := [7/2, 15/2, 23/2]

def GRACE_PERIOD_MONTHS : ℚ := 6

/-- Python `int(...)` on a number: truncation toward zero.  On an exact
rational this is `num.tdiv den` (T-division). -/
def pyInt (q : ℚ) : ℤ := q.num.tdiv (q.den : ℤ)

/-- `calculate_maintenance_fee_dates` (expiration_calc.py lines 71–104).
`int(year_offset * 365.25)` and `int(GRACE_PERIOD_MONTHS * 30.44)` are
float truncations of positive values (3.5·365.25 = 1278.375 etc., all
exact in binary except 30.44 whose product 182.64±ulp still truncates to
182), so they equal `pyInt` of the exact rational products. -/
def calculate_maintenance_fee_dates (grant_date : ℤ) : List FeeWindow :=
  MAINTENANCE_FEE_YEARS.map (fun yo =>
    let due := grant_date + pyInt (yo * (36525 / 100 : ℚ))
    let grace := due + pyInt (GRACE_PERIOD_MONTHS * (3044 / 100 : ℚ))
    let fee_year : ℤ := pyInt yo
    let label0 := "Year " ++ toString fee_year
    let label := if yo == 7/2 then "3.5 Year"
      else if yo == 15/2 then "7.5 Year"
      else if yo == 23/2 then "11.5 Year"
      else label0
    { fee_year := fee_year, label := label, due_date := due,
      grace_period_end := grace, window_open := due - 180 })

/-- The fee-window loop of `determine_patent_status` (lines 129–133):
returns `true` iff the walk hits a window past its grace period whose
fee-year was not paid (first such window returns early in the source). -/
def lapseCheck (today : ℤ) (paid : List ℤ) : List FeeWindow → Bool
  | [] => false
  | fee :: rest =>
    if today > fee.grace_period_end then
      if !(paid.contains fee.fee_year) then true
      else lapseCheck today paid rest
    else lapseCheck today paid rest

/-- `determine_patent_status` (expiration_calc.py lines 107–135), with
`date.today()` passed explicitly as `today`. -/
def determine_patent_status (today : ℤ) (expiration_date : Option ℤ)
    (maintenance_fees_paid : Option (List ℤ)) (grant_date : Option ℤ) : String :=
  match expiration_date with
  | none => "unknown"
  | some exp =>
    if today > exp then "expired"
    else
      match grant_date, maintenance_fees_paid with
      | some g, some paid =>
        if lapseCheck today paid (calculate_maintenance_fee_dates g)
        then "lapsed" else "active"
      | _, _ => "active"

/-! ### Helper lemmas -/

/-- Spec-side helper for stating C1: a terminal disclaimer earlier than the
computed expiration wins. -/
def cappedByDisclaimer (td : Option ℤ) (b : ℤ) : ℤ :=
  match td with
  | some t => if t < b then t else b
  | none => b

theorem add_if_pos {b x : ℤ} (hx : 0 ≤ x) :
    (if x > 0 then b + x else b) = b + x := by
  rcases hx.lt_or_eq with h | h
  · simp [h]
  · simp [← h]

theorem pyInt_due_35 : pyInt ((7/2 : ℚ) * (36525 / 100)) = 1278 := by
  have h1 : ((7/2 : ℚ) * (36525 / 100)).num = 10227 := by norm_num
  have h2 : ((7/2 : ℚ) * (36525 / 100)).den = 8 := by norm_num
  rw [pyInt, h1, h2]; decide

theorem pyInt_due_75 : pyInt ((15/2 : ℚ) * (36525 / 100)) = 2739 := by
  have h1 : ((15/2 : ℚ) * (36525 / 100)).num = 21915 := by norm_num
  have h2 : ((15/2 : ℚ) * (36525 / 100)).den = 8 := by norm_num
  rw [pyInt, h1, h2]; decide

theorem pyInt_due_115 : pyInt ((23/2 : ℚ) * (36525 / 100)) = 4200 := by
  have h1 : ((23/2 : ℚ) * (36525 / 100)).num = 33603 := by norm_num
  have h2 : ((23/2 : ℚ) * (36525 / 100)).den = 8 := by norm_num
  rw [pyInt, h1, h2]; decide

theorem grace_offset_eq : pyInt (GRACE_PERIOD_MONTHS * (3044 / 100 : ℚ)) = 182 := by
  have h1 : (GRACE_PERIOD_MONTHS * (3044 / 100 : ℚ)).num = 4566 := by
    norm_num [GRACE_PERIOD_MONTHS]
  have h2 : (GRACE_PERIOD_MONTHS * (3044 / 100 : ℚ)).den = 25 := by
    norm_num [GRACE_PERIOD_MONTHS]
  rw [pyInt, h1, h2]; decide

theorem pyInt_fy3 : pyInt (7/2 : ℚ) = 3 := by
  have h1 : (7/2 : ℚ).num = 7 := by norm_num
  have h2 : (7/2 : ℚ).den = 2 := by norm_num
  rw [pyInt, h1, h2]; decide

theorem pyInt_fy7 : pyInt (15/2 : ℚ) = 7 := by
  have h1 : (15/2 : ℚ).num = 15 := by norm_num
  have h2 : (15/2 : ℚ).den = 2 := by norm_num
  rw [pyInt, h1, h2]; decide

theorem pyInt_fy11 : pyInt (23/2 : ℚ) = 11 := by
  have h1 : (23/2 : ℚ).num = 23 := by norm_num
  have h2 : (23/2 : ℚ).den = 2 := by norm_num
  rw [pyInt, h1, h2]; decide

/-- Closed form of the three maintenance-fee windows. -/
theorem calculate_maintenance_fee_dates_eq (g : ℤ) :
    calculate_maintenance_fee_dates g =
      [⟨3, "3.5 Year", g + 1278, g + 1460, g + 1098⟩,
       ⟨7, "7.5 Year", g + 2739, g + 2921, g + 2559⟩,
       ⟨11, "11.5 Year", g + 4200, g + 4382, g + 4020⟩] := by
  unfold calculate_maintenance_fee_dates MAINTENANCE_FEE_YEARS
  simp only [List.map, pyInt_due_35, pyInt_due_75, pyInt_due_115,
    grace_offset_eq, pyInt_fy3, pyInt_fy7, pyInt_fy11, beq_iff_eq]
  norm_num
  omega

theorem lapseCheck_iff (today : ℤ) (paid : List ℤ) (l : List FeeWindow) :
    lapseCheck today paid l = true ↔
      ∃ w ∈ l, w.grace_period_end < today ∧ w.fee_year ∉ paid := by
  induction l with
  | nil => simp [lapseCheck]
  | cons fee rest ih =>
    unfold lapseCheck
    by_cases hg : today > fee.grace_period_end
    · by_cases hp : fee.fee_year ∈ paid
      · have hc : paid.contains fee.fee_year = true := by simp [hp]
        rw [if_pos hg, hc]
        simp only [Bool.not_true, if_neg (by simp : ¬ (false = true)), ih]
        constructor
        · intro h
          rcases h with ⟨w, hw, h1, h2⟩
          exact ⟨w, List.mem_cons_of_mem _ hw, h1, h2⟩
        · rintro ⟨w, hw, h1, h2⟩
          rcases List.mem_cons.mp hw with rfl | hw'
          · exact absurd hp h2
          · exact ⟨w, hw', h1, h2⟩
      · have hc : paid.contains fee.fee_year = false := by simp [hp]
        rw [if_pos hg, hc]
        simp only [Bool.not_false, if_pos rfl]
        constructor
        · intro _
          exact ⟨fee, List.mem_cons_self _ _, hg, hp⟩
        · intro _
          rfl
    · rw [if_neg hg]
      rw [ih]
      constructor
      · rintro ⟨w, hw, h1, h2⟩
        exact ⟨w, List.mem_cons_of_mem _ hw, h1, h2⟩
      · rintro ⟨w, hw, h1, h2⟩
        rcases List.mem_cons.mp hw with rfl | hw'
        · exact absurd h1 hg
        · exact ⟨w, hw', h1, h2⟩

/-! ### Claims about `expiration_calc.py` -/

/-- C1: for every non-design patent type, with `pta_days ≥ 0` and
`pte_days ≥ 0`: with a non-null filing date the expiration is
`filing + 7300 + pta + pte`, with an earlier non-null terminal-disclaimer
date returned instead; with filing null and grant non-null the base is
`(grant − 1095) + 7300` (same adjustments and cap); with both dates null
the result is null. -/
theorem c1_expiration_non_design (pt : Option String)
    (hpt : isDesignType pt = false) (pta pte : ℤ)
    (hpta : 0 ≤ pta) (hpte : 0 ≤ pte) (td : Option ℤ) :
    (∀ f g?, calculate_expiration_date (some f) g? pt pta pte td
        = some (cappedByDisclaimer td (f + 7300 + pta + pte))) ∧
    (∀ g, calculate_expiration_date none (some g) pt pta pte td
        = some (cappedByDisclaimer td ((g - 1095) + 7300 + pta + pte))) ∧
    calculate_expiration_date none none pt pta pte td = none := by
  have h20 : STANDARD_TERM_YEARS * 365 = 7300 := by decide
  refine ⟨fun f g? => ?_, fun g => ?_, ?_⟩
  · unfold calculate_expiration_date
    have hc : ((some f).isNone && g?.isNone) = false := by cases g? <;> rfl
    rw [hc]
    simp only [Bool.false_eq_true, if_false, hpt, h20]
    rw [add_if_pos hpta, add_if_pos hpte]
    cases td with
    | none => rfl
    | some t =>
      by_cases hlt : t < f + 7300 + pta + pte <;>
        simp [cappedByDisclaimer, hlt]
  · unfold calculate_expiration_date
    simp only [Option.isNone_none, Option.isNone_some, Bool.and_false,
      Bool.false_eq_true, if_false, hpt, h20]
    rw [add_if_pos hpta, add_if_pos hpte]
    have h3 : (3 : ℤ) * 365 = 1095 := by decide
    rw [h3]
    cases td with
    | none => rfl
    | some t =>
      by_cases hlt : t < g - 1095 + 7300 + pta + pte <;>
        simp [cappedByDisclaimer, hlt]
  · rfl

/-- Witness for C1 at a concrete utility patent. -/
theorem c1_witness :
    calculate_expiration_date (some 700000) (some 701000) (some "utility")
        5 7 none = some 707312 := by
  have h := (c1_expiration_non_design (some "utility") (by decide) 5 7
    (by decide) (by decide) none).1 700000 (some 701000)
  rw [h]
  norm_num [cappedByDisclaimer]

/-- C10 (amendable reading of independence): for a design-type patent with
non-null grant date, the result ignores `pta_days`, `pte_days` and the
terminal-disclaimer date entirely, and equals `grant + 5475`. -/
theorem c10_design_ignores_adjustments (pt : Option String)
    (hpt : isDesignType pt = true) (f? : Option ℤ) (g : ℤ)
    (pta pte pta2 pte2 : ℤ) (td td2 : Option ℤ) :
    calculate_expiration_date f? (some g) pt pta pte td
      = calculate_expiration_date f? (some g) pt pta2 pte2 td2 ∧
    calculate_expiration_date f? (some g) pt pta pte td = some (g + 5475) := by
  have h15 : DESIGN_TERM_YEARS * 365 = 5475 := by decide
  unfold calculate_expiration_date
  cases f? <;> simp [hpt, h15]

/-- Witness for C10 at a concrete design patent. -/
theorem c10_witness :
    calculate_expiration_date none (some 737425) (some "design") 100 200
        (some 1)
      = calculate_expiration_date none (some 737425) (some "design") 0 0
        none ∧
    calculate_expiration_date none (some 737425) (some "design") 100 200
        (some 1) = some 742900 := by
  have h := c10_design_ignores_adjustments (some "design") (by decide)
    none 737425 100 200 0 0 (some 1) none
  refine ⟨h.1, ?_⟩
  rw [h.2]
  norm_num

/-- C5 counterexample: at grant date 2020-01-01, every fee window has a
grace period of 182 days after the due date, not 183 as claimed. -/
theorem c5_counterexample :
    ((calculate_maintenance_fee_dates (toOrdinal 2020 1 1)).all
      (fun w => w.grace_period_end == w.due_date + 183)) = false := by
  rw [calculate_maintenance_fee_dates_eq]
  decide

/-- C5 amended: every fee window of `calculate_maintenance_fee_dates` has
`grace_period_end = due_date + 182` (the source truncates `6 × 30.44`
with `int(...)`, giving 182, not `round(...)` = 183). -/
theorem c5_grace_period_182 (g : ℤ) (w : FeeWindow)
    (hw : w ∈ calculate_maintenance_fee_dates g) :
    w.grace_period_end = w.due_date + 182 := by
  rw [calculate_maintenance_fee_dates_eq] at hw
  simp only [List.mem_cons, List.not_mem_nil, or_false] at hw
  rcases hw with rfl | rfl | rfl <;> simp <;> omega

/-- Witness for C5 at grant ordinal 737425 (2020-01-01). -/
theorem c5_witness :
    (⟨3, "3.5 Year", 738703, 738885, 738523⟩ : FeeWindow) ∈
        calculate_maintenance_fee_dates 737425 ∧
    (738885 : ℤ) = 738703 + 182 := by
  have hmem : (⟨3, "3.5 Year", 738703, 738885, 738523⟩ : FeeWindow) ∈
      calculate_maintenance_fee_dates 737425 := by
    rw [calculate_maintenance_fee_dates_eq]
    decide
  exact ⟨hmem, c5_grace_period_182 737425 _ hmem⟩

/-- C6 counterexample: grant 2020-01-01, type "design" gives expiration
2034-12-28 (= 2020-01-01 + 5475 days), not 2034-06-18; and the fee
schedule for that grant date has three windows, not zero (the function is
type-agnostic). -/
theorem c6_counterexample :
    calculate_expiration_date none (some (toOrdinal 2020 1 1))
        (some "design") 0 0 none = some (toOrdinal 2034 12 28) ∧
    toOrdinal 2034 12 28 ≠ toOrdinal 2034 6 18 ∧
    (calculate_maintenance_fee_dates (toOrdinal 2020 1 1)).length = 3 := by
  refine ⟨by decide, by decide, ?_⟩
  rw [calculate_maintenance_fee_dates_eq]
  rfl

/-- C6 amended: the design expiration for grant 2020-01-01 is
`grant + 5475` = 2034-12-28, and `calculate_maintenance_fee_dates`
produces its three windows for this grant date regardless of type. -/
theorem c6_amended :
    calculate_expiration_date none (some (toOrdinal 2020 1 1))
        (some "design") 0 0 none = some (toOrdinal 2020 1 1 + 5475) ∧
    toOrdinal 2020 1 1 + 5475 = toOrdinal 2034 12 28 ∧
    (calculate_maintenance_fee_dates (toOrdinal 2020 1 1)).length = 3 := by
  refine ⟨by decide, by decide, ?_⟩
  rw [calculate_maintenance_fee_dates_eq]
  rfl

/-- C3: full case analysis of `determine_patent_status`: "unknown" on a
null expiration; "expired" whenever `today > expiration` (regardless of
fees); with grant date and paid list both provided and not expired,
"lapsed" iff some fee window is past its grace period with its fee-year
unpaid, otherwise "active"; "active" when either grant date or paid list
is missing and not expired. -/
theorem c3_status_cases (today : ℤ) (exp? : Option ℤ)
    (paid? : Option (List ℤ)) (g? : Option ℤ) :
    (exp? = none →
      determine_patent_status today exp? paid? g? = "unknown") ∧
    (∀ e, exp? = some e → today > e →
      determine_patent_status today exp? paid? g? = "expired") ∧
    (∀ e g paid, exp? = some e → ¬ today > e → g? = some g →
      paid? = some paid →
      (determine_patent_status today exp? paid? g? = "lapsed" ↔
        ∃ w ∈ calculate_maintenance_fee_dates g,
          w.grace_period_end < today ∧ w.fee_year ∉ paid) ∧
      (determine_patent_status today exp? paid? g? = "active" ↔
        ¬ ∃ w ∈ calculate_maintenance_fee_dates g,
          w.grace_period_end < today ∧ w.fee_year ∉ paid)) ∧
    (∀ e, exp? = some e → ¬ today > e → (g? = none ∨ paid? = none) →
      determine_patent_status today exp? paid? g? = "active") := by
  refine ⟨?_, ?_, ?_, ?_⟩
  · rintro rfl
    rfl
  · rintro e rfl h
    simp [determine_patent_status, h]
  · rintro e g paid rfl h rfl rfl
    have hiff := lapseCheck_iff today paid (calculate_maintenance_fee_dates g)
    by_cases hl : lapseCheck today paid (calculate_maintenance_fee_dates g)
    · have hex := hiff.mp hl
      have hdps : determine_patent_status today (some e) (some paid) (some g)
          = "lapsed" := by simp [determine_patent_status, h, hl]
      rw [hdps]
      refine ⟨⟨fun _ => hex, fun _ => rfl⟩, ?_, ?_⟩
      · intro habs
        exact absurd habs (by decide)
      · intro hneg
        exact absurd hex hneg
    · have hl' : lapseCheck today paid (calculate_maintenance_fee_dates g)
          = false := by simpa using hl
      have hnex : ¬ ∃ w ∈ calculate_maintenance_fee_dates g,
          w.grace_period_end < today ∧ w.fee_year ∉ paid :=
        fun hc => hl (hiff.mpr hc)
      have hdps : determine_patent_status today (some e) (some paid) (some g)
          = "active" := by simp [determine_patent_status, h, hl']
      rw [hdps]
      refine ⟨⟨fun habs => absurd habs (by decide), fun hex => absurd hex hnex⟩,
        fun _ => hnex, fun _ => rfl⟩
  · rintro e rfl h hcase
    rcases hcase with rfl | rfl
    · rcases paid? with _ | p <;> simp [determine_patent_status, h]
    · rcases g? with _ | g <;> simp [determine_patent_status, h]

/-- Witness for C3: a patent past its first grace period with nothing
paid is "lapsed". -/
theorem c3_witness :
    determine_patent_status 5000 (some 10000) (some []) (some 0)
      = "lapsed" := by
  have h := ((c3_status_cases 5000 (some 10000) (some []) (some 0)).2.2.1
    10000 0 [] rfl (by decide) rfl rfl).1
  refine h.mpr ⟨⟨3, "3.5 Year", 1278, 1460, 1098⟩, ?_, by decide, by decide⟩
  rw [calculate_maintenance_fee_dates_eq]
  simp

/-! ## `src/services/whitespace_service.py` -/

/-- The growth-rate computation of the coverage loop
(whitespace_service.py lines 100–107), before the 3-decimal rounding of
the report: with `older = patent_count - recent_count`, the rate is
`(recent_count - older/(years-2)) / max(older/(years-2), 1)` when
`older > 0 and years > 2`, else `0`.  Python float division is carried
out over `ℚ`. -/
def coverage_growth_rate (years patent_count recent_count : ℤ) : ℚ :=
  let older := patent_count - recent_count
  if older > 0 ∧ years > 2 then
    ((recent_count : ℚ) - (older : ℚ) / ((years : ℚ) - 2)) /
      max ((older : ℚ) / ((years : ℚ) - 2)) 1
  else 0

/-- `_classify_opportunity` (whitespace_service.py lines 495–510). -/
def classify_opportunity (decline_ratio : ℚ) (high_impact recent : ℤ) :
    String :=
  if decline_ratio > 7/10 ∧ high_impact ≥ 3 then "abandoned_goldmine"
  else if decline_ratio > 1/2 ∧ recent < 5 then "dormant"
  else if high_impact ≥ 5 ∧ decline_ratio > 3/10 then "consolidation"
  else if decline_ratio > 3/10 then "emerging_gap"
  else "minor_gap"

/-- C7 counterexample: at years = 5, patent_count = 8, recent_count = 2
(so older = 6), the code reports 0 while the claimed formula
`(recent/2 − older/(years−2)) / (older/(years−2))` gives −1/2. -/
theorem c7_counterexample :
    coverage_growth_rate 5 8 2 = 0 ∧
    ((2 : ℚ) / 2 - (6 : ℚ) / 3) / ((6 : ℚ) / 3) = -(1/2) ∧
    (0 : ℚ) ≠ -(1/2) := by
  refine ⟨?_, by norm_num, by norm_num⟩
  norm_num [coverage_growth_rate]

/-- C7 amended: with `older = patent_count - recent_count > 0` and
`years > 2` the growth rate is
`(recent_count − older/(years−2)) / max(older/(years−2), 1)` — the
recent term is not annualized (not divided by 2) and the denominator is
clamped from below by 1; in all other cases the rate is 0. -/
theorem c7_growth_rate_formula :
    (∀ years pc rc : ℤ, pc - rc > 0 → years > 2 →
      coverage_growth_rate years pc rc =
        ((rc : ℚ) - ((pc : ℚ) - rc) / ((years : ℚ) - 2)) /
          max (((pc : ℚ) - rc) / ((years : ℚ) - 2)) 1) ∧
    (∀ years pc rc : ℤ, ¬ (pc - rc > 0 ∧ years > 2) →
      coverage_growth_rate years pc rc = 0) := by
  constructor
  · intro years pc rc h1 h2
    simp only [coverage_growth_rate]
    rw [if_pos (show pc - rc > 0 ∧ years > 2 from ⟨h1, h2⟩)]
    push_cast
    ring_nf
  · intro years pc rc h
    simp only [coverage_growth_rate]
    rw [if_neg h]

/-- Witness for C7's amended formula at years = 5, counts 8 and 2. -/
theorem c7_witness :
    coverage_growth_rate 5 8 2 =
      ((2 : ℚ) - ((8 : ℚ) - 2) / ((5 : ℚ) - 2)) /
        max (((8 : ℚ) - 2) / ((5 : ℚ) - 2)) 1 := by
  have h := c7_growth_rate_formula.1 5 8 2 (by decide) (by decide)
  simpa using h

/-- C8: the classifier is total with first-match-wins semantics: every
input in the claimed domain yields exactly one of the five labels, each
label holding exactly when its rule is the first to fire. -/
theorem c8_classifier_total (d : ℚ) (hi r : ℤ)
    (hd : 0 ≤ d) (hh : 0 ≤ hi) (hr : 0 ≤ r) :
    (classify_opportunity d hi r = "abandoned_goldmine" ∨
     classify_opportunity d hi r = "dormant" ∨
     classify_opportunity d hi r = "consolidation" ∨
     classify_opportunity d hi r = "emerging_gap" ∨
     classify_opportunity d hi r = "minor_gap") ∧
    (classify_opportunity d hi r = "abandoned_goldmine" ↔
      d > 7/10 ∧ hi ≥ 3) ∧
    (classify_opportunity d hi r = "dormant" ↔
      ¬ (d > 7/10 ∧ hi ≥ 3) ∧ (d > 1/2 ∧ r < 5)) ∧
    (classify_opportunity d hi r = "consolidation" ↔
      ¬ (d > 7/10 ∧ hi ≥ 3) ∧ ¬ (d > 1/2 ∧ r < 5) ∧
      (hi ≥ 5 ∧ d > 3/10)) ∧
    (classify_opportunity d hi r = "emerging_gap" ↔
      ¬ (d > 7/10 ∧ hi ≥ 3) ∧ ¬ (d > 1/2 ∧ r < 5) ∧
      ¬ (hi ≥ 5 ∧ d > 3/10) ∧ d > 3/10) ∧
    (classify_opportunity d hi r = "minor_gap" ↔
      ¬ (d > 7/10 ∧ hi ≥ 3) ∧ ¬ (d > 1/2 ∧ r < 5) ∧
      ¬ (hi ≥ 5 ∧ d > 3/10) ∧ ¬ d > 3/10) := by
  unfold classify_opportunity
  split_ifs with h1 h2 h3 h4
  · exact ⟨Or.inl rfl, iff_of_true rfl h1,
      iff_of_false (by decide) (fun hr => hr.1 h1),
      iff_of_false (by decide) (fun hr => hr.1 h1),
      iff_of_false (by decide) (fun hr => hr.1 h1),
      iff_of_false (by decide) (fun hr => hr.1 h1)⟩
  · exact ⟨Or.inr (Or.inl rfl),
      iff_of_false (by decide) (fun hr => h1 hr),
      iff_of_true rfl ⟨h1, h2⟩,
      iff_of_false (by decide) (fun hr => hr.2.1 h2),
      iff_of_false (by decide) (fun hr => hr.2.1 h2),
      iff_of_false (by decide) (fun hr => hr.2.1 h2)⟩
  · exact ⟨Or.inr (Or.inr (Or.inl rfl)),
      iff_of_false (by decide) (fun hr => h1 hr),
      iff_of_false (by decide) (fun hr => h2 hr.2),
      iff_of_true rfl ⟨h1, h2, h3⟩,
      iff_of_false (by decide) (fun hr => hr.2.2.1 h3),
      iff_of_false (by decide) (fun hr => hr.2.2.1 h3)⟩
  · exact ⟨Or.inr (Or.inr (Or.inr (Or.inl rfl))),
      iff_of_false (by decide) (fun hr => h1 hr),
      iff_of_false (by decide) (fun hr => h2 hr.2),
      iff_of_false (by decide) (fun hr => h3 hr.2.2),
      iff_of_true rfl ⟨h1, h2, h3, h4⟩,
      iff_of_false (by decide) (fun hr => hr.2.2.2 h4)⟩
  · exact ⟨Or.inr (Or.inr (Or.inr (Or.inr rfl))),
      iff_of_false (by decide) (fun hr => h1 hr),
      iff_of_false (by decide) (fun hr => h2 hr.2),
      iff_of_false (by decide) (fun hr => h3 hr.2.2),
      iff_of_false (by decide) (fun hr => h4 hr.2.2.2),
      iff_of_true rfl ⟨h1, h2, h3, h4⟩⟩

/-- Witness for C8: a sharp decline over a high-impact area is an
abandoned goldmine. -/
theorem c8_witness :
    classify_opportunity 1 3 0 = "abandoned_goldmine" := by
  have h := (c8_classifier_total 1 3 0 (by norm_num) (by decide)
    (by decide)).2.1
  exact h.mpr ⟨by norm_num, by decide⟩

/-! ## `src/ai/search_service.py`

The database is a list of patent rows; the PostgreSQL `similarity`
function and the PatentSBERTa embedding / pgvector cosine distance are
opaque parameters (`sim`, `embedFn`, `cosDist`).  `ILIKE
'%<escaped>%'` with `_escape_like` making the specials literal is
case-insensitive substring containment.  `ORDER BY` ties are unspecified
in SQL; the embedding fixes the stable order (Python `sorted` is
stable). -/

/-- A row of the `patents` table, with the columns the search service
touches.  `embedding` is `none` for patents without a computed vector. -/
structure PatentRow where
  id : ℕ
  patent_number : String
  title : Option String
  abstract : Option String
  assignee_organization : Option String
  inventors : Option (List String)
  cpc_codes : Option (List String)
  status : Option String
  country : Option String
  filing_date : Option ℤ
  grant_date : Option ℤ
  expiration_date : Option ℤ
  citation_count : Option ℕ
  embedding : Option (List ℚ)
deriving Repr, DecidableEq, Inhabited

/-- The search `filters` dict; a missing key is `none`. -/
structure SearchFilters where
  country : Option String := none
  status : Option String := none
  assignee : Option String := none
  cpc_codes : Option (List String) := none
  date_from : Option ℤ := none
  date_to : Option ℤ := none
deriving Repr, DecidableEq, Inhabited

/-- `filters.get(key)` truthiness for a string value. -/
def truthyStr : Option String → Bool
  | some s => !s.isEmpty
  | none => false

/-- `filters.get("cpc_codes")` truthiness for a list value. -/
def truthyList : Option (List String) → Bool
  | some l => !l.isEmpty
  | none => false

/-- `column ILIKE '%<escaped q>%'`: case-insensitive substring test;
NULL columns never match. -/
def ilike_contains (column : Option String) (q : String) : Bool :=
  match column with
  | none => false
  | some s => decide (List.IsInfix ((strLower q).data) ((strLower s).data))

/-- The `or_(...)` search condition of `fulltext_search` (search_service.py
lines 42–47). -/
def search_condition (q : String) (p : PatentRow) : Bool :=
  ilike_contains p.title q || ilike_contains p.abstract q ||
    ilike_contains (some p.patent_number) q ||
    ilike_contains p.assignee_organization q

/-- `greatest(coalesce(similarity(title, q), 0), coalesce(similarity(abstract, q), 0))`. -/
def ft_relevance (sim : String → String → ℚ) (q : String) (p : PatentRow) : ℚ :=
  max (match p.title with | some t => sim t q | none => 0)
      (match p.abstract with | some a => sim a q | none => 0)

/-- Array `overlap` (`&&` in PostgreSQL): some element in common. -/
def arrayOverlap (a b : List String) : Bool := a.any (fun x => b.contains x)

/-- `_apply_filters` (search_service.py lines 202–223). -/
def apply_filters (filters : Option SearchFilters) (rows : List PatentRow) :
    List PatentRow :=
  match filters with
  | none => rows
  | some f =>
    let r1 := if truthyStr f.country then
        rows.filter (fun p => p.country == f.country) else rows
    let r2 := if truthyStr f.status then
        r1.filter (fun p => p.status == f.status) else r1
    let r3 := if truthyStr f.assignee then
        r2.filter (fun p =>
          ilike_contains p.assignee_organization (f.assignee.getD "")) else r2
    let r4 := if truthyList f.cpc_codes then
        r3.filter (fun p =>
          match p.cpc_codes with
          | some cs => arrayOverlap cs (f.cpc_codes.getD [])
          | none => false) else r3
    let r5 := match f.date_from with
      | some lo => r4.filter (fun p =>
          match p.filing_date with
          | some d => lo ≤ d
          | none => false)
      | none => r4
    let r6 := match f.date_to with
      | some hi => r5.filter (fun p =>
          match p.filing_date with
          | some d => d ≤ hi
          | none => false)
      | none => r5
    r6

/-- Floor of a rational (`/` on `ℤ` floors for the positive denominator). -/
def ratFloor (q : ℚ) : ℤ := q.num / (q.den : ℤ)

/-- Python `round(x, ndigits)`: scale, round half to even, unscale. -/
def pyRound (ndigits : ℕ) (x : ℚ) : ℚ :=
  let scaled := x * (10 ^ ndigits : ℚ)
  let fl := ratFloor scaled
  let frac := scaled - (fl : ℚ)
  let r : ℤ :=
    if frac < 1/2 then fl
    else if 1/2 < frac then fl + 1
    else if fl % 2 = 0 then fl else fl + 1
  (r : ℚ) / (10 ^ ndigits : ℚ)

/-- A search-result dict (`_patent_to_result`, lines 226–244). -/
structure SearchResult where
  patent_number : String
  title : Option String
  abstract : Option String
  filing_date : Option ℤ
  grant_date : Option ℤ
  expiration_date : Option ℤ
  assignee_organization : Option String
  inventors : Option (List String)
  cpc_codes : Option (List String)
  status : Option String
  country : Option String
  citation_count : Option ℕ
  relevance_score : ℚ
deriving Repr, DecidableEq, Inhabited

/-- `_patent_to_result` with its 4-digit rounding of the score. -/
def patent_to_result (p : PatentRow) (score : ℚ) : SearchResult :=
  { patent_number := p.patent_number, title := p.title,
    abstract := p.abstract, filing_date := p.filing_date,
    grant_date := p.grant_date, expiration_date := p.expiration_date,
    assignee_organization := p.assignee_organization,
    inventors := p.inventors, cpc_codes := p.cpc_codes,
    status := p.status, country := p.country,
    citation_count := p.citation_count,
    relevance_score := pyRound 4 score }

/-- Stable insert for descending order by `key` (earlier elements win
ties). -/
def insertDescBy {α : Type} (key : α → ℚ) (x : α) : List α → List α
  | [] => [x]
  | y :: ys => if key y ≤ key x then x :: y :: ys else y :: insertDescBy key x ys

/-- Stable descending sort by `key`. -/
def sortDescBy {α : Type} (key : α → ℚ) : List α → List α
  | [] => []
  | x :: xs => insertDescBy key x (sortDescBy key xs)

/-- Stable insert for ascending order by `key`. -/
def insertAscBy {α : Type} (key : α → ℚ) (x : α) : List α → List α
  | [] => [x]
  | y :: ys => if key x ≤ key y then x :: y :: ys else y :: insertAscBy key x ys

/-- Stable ascending sort by `key`. -/
def sortAscBy {α : Type} (key : α → ℚ) : List α → List α
  | [] => []
  | x :: xs => insertAscBy key x (sortAscBy key xs)

/-- `fulltext_search` (search_service.py lines 26–77). -/
def fulltext_search (db : List PatentRow) (sim : String → String → ℚ)
    (query : String) (filters : Option SearchFilters)
    (page per_page : ℕ) : List SearchResult × ℕ :=
  let offset := (page - 1) * per_page
  let matched := apply_filters filters (db.filter (search_condition query))
  let total := matched.length
  let sorted := sortDescBy (ft_relevance sim query) matched
  let rows := (sorted.drop offset).take per_page
  (rows.map (fun p => patent_to_result p (ft_relevance sim query p)), total)

/-- `semantic_search` (search_service.py lines 79–129). -/
def semantic_search (db : List PatentRow) (embedFn : String → List ℚ)
    (cosDist : List ℚ → List ℚ → ℚ) (query : String)
    (filters : Option SearchFilters) (page per_page : ℕ) :
    List SearchResult × ℕ :=
  let offset := (page - 1) * per_page
  let query_embedding := embedFn query
  let withEmb := db.filter (fun p => p.embedding.isSome)
  let base := apply_filters filters withEmb
  let total := match filters with
    | none => withEmb.length
    | some _ => base.length
  let sorted := sortAscBy (fun p => cosDist (p.embedding.getD []) query_embedding) base
  let rows := (sorted.drop offset).take per_page
  (rows.map (fun p =>
    patent_to_result p (max 0 (1 - cosDist (p.embedding.getD []) query_embedding))),
   total)

/-- First value bound to `k` in an association list (a Python dict with
insertion order, restricted to lookup). -/
def dfind {β : Type} (k : String) : List (String × β) → Option β
  | [] => none
  | (k', v) :: t => if k' = k then some v else dfind k t

/-- `d[k] = v` on a Python dict: replace in place or append. -/
def dset {β : Type} (k : String) (v : β) : List (String × β) → List (String × β)
  | [] => [(k, v)]
  | (k', v') :: t => if k' = k then (k, v) :: t else (k', v') :: dset k v t

/-- One `for rank, result in enumerate(results)` pass of the RRF loops
(search_service.py lines 170–182): accumulate `contrib rank` into
`rrf_scores` and record `patent_data`. -/
def rrf_pass (contrib : ℕ → ℚ) :
    List SearchResult → ℕ →
    List (String × ℚ) × List (String × SearchResult) →
    List (String × ℚ) × List (String × SearchResult)
  | [], _, st => st
  | r :: rest, rank, (scores, data) =>
    let pn := r.patent_number
    rrf_pass contrib rest (rank + 1)
      (dset pn ((dfind pn scores).getD 0 + contrib rank) scores,
       dset pn r data)

/-- Both RRF passes with `k = 60`: full-text contributions weighted
`(1 - semantic_weight)`, semantic contributions weighted
`semantic_weight`. -/
def rrf_scores (semantic_weight : ℚ)
    (fulltext_results semantic_results : List SearchResult) :
    List (String × ℚ) × List (String × SearchResult) :=
  let st1 := rrf_pass
    (fun rank => (1 - semantic_weight) / ((60 + rank + 1 : ℕ) : ℚ))
    fulltext_results 0 ([], [])
  rrf_pass (fun rank => semantic_weight / ((60 + rank + 1 : ℕ) : ℚ))
    semantic_results 0 st1

/-- The fused RRF score of one patent number (0 when absent from both
source lists). -/
def rrf_score_of (semantic_weight : ℚ)
    (fulltext_results semantic_results : List SearchResult)
    (pn : String) : ℚ :=
  (dfind pn (rrf_scores semantic_weight fulltext_results semantic_results).1).getD 0

/-- `hybrid_search` (search_service.py lines 131–200). -/
def hybrid_search (db : List PatentRow) (sim : String → String → ℚ)
    (embedFn : String → List ℚ) (cosDist : List ℚ → List ℚ → ℚ)
    (query : String) (filters : Option SearchFilters)
    (page per_page : ℕ) (semantic_weight : ℚ) :
    List SearchResult × ℕ :=
  let embedding_count := (db.filter (fun p => p.embedding.isSome)).length
  if embedding_count = 0 then
    -- no embeddings available, fall back to fulltext
    fulltext_search db sim query filters page per_page
  else
    let fusion_limit := per_page * 3
    let ftr := fulltext_search db sim query filters 1 fusion_limit
    let semr := semantic_search db embedFn cosDist query filters 1 fusion_limit
    let st := rrf_scores semantic_weight ftr.1 semr.1
    let sorted_patents := sortDescBy (fun x => x.2) st.1
    let offset := (page - 1) * per_page
    let page_results := (sorted_patents.drop offset).take per_page
    let max_rrf := match sorted_patents with
      | [] => 1
      | x :: _ => x.2
    let results := page_results.map (fun pr =>
      let data := (dfind pr.1 st.2).getD default
      { data with relevance_score :=
          if max_rrf > 0 then pyRound 4 (pr.2 / max_rrf) else 0 })
    (results, st.1.length)

/-! ### Dict lemmas for the RRF fusion -/

theorem dfind_dset_eq {β : Type} (k : String) (v : β)
    (d : List (String × β)) : dfind k (dset k v d) = some v := by
  induction d with
  | nil => simp [dset, dfind]
  | cons hd t ih =>
    obtain ⟨k', v'⟩ := hd
    by_cases h : k' = k
    · subst h
      simp [dset, dfind]
    · simp [dset, dfind, h, ih]

theorem dfind_dset_ne {β : Type} (k k' : String) (v : β)
    (hne : k ≠ k') (d : List (String × β)) :
    dfind k' (dset k v d) = dfind k' d := by
  induction d with
  | nil => simp [dset, dfind, hne]
  | cons hd t ih =>
    obtain ⟨k0, v0⟩ := hd
    by_cases h : k0 = k
    · subst h
      simp [dset, dfind, hne]
    · simp [dset, dfind, h, ih]

/-- A pass leaves untouched the score of a patent number absent from its
result list. -/
theorem rrf_pass_not_mem (contrib : ℕ → ℚ) (results : List SearchResult)
    (rank : ℕ) (st : List (String × ℚ) × List (String × SearchResult))
    (pn : String)
    (h : pn ∉ results.map (fun r => r.patent_number)) :
    dfind pn (rrf_pass contrib results rank st).1 = dfind pn st.1 := by
  induction results generalizing rank st with
  | nil => rfl
  | cons r rest ih =>
    obtain ⟨scores, data⟩ := st
    simp only [List.map_cons, List.mem_cons, not_or] at h
    rw [rrf_pass, ih _ _ h.2]
    exact dfind_dset_ne _ _ _ (fun he => h.1 he.symm) scores

/-- A pass adds `contrib rank` to the score of the head patent when its
number does not recur in the tail. -/
theorem rrf_pass_head (contrib : ℕ → ℚ) (r : SearchResult)
    (rest : List SearchResult) (rank : ℕ)
    (st : List (String × ℚ) × List (String × SearchResult))
    (h : r.patent_number ∉ rest.map (fun x => x.patent_number)) :
    dfind r.patent_number (rrf_pass contrib (r :: rest) rank st).1
      = some ((dfind r.patent_number st.1).getD 0 + contrib rank) := by
  obtain ⟨scores, data⟩ := st
  rw [rrf_pass, rrf_pass_not_mem _ _ _ _ _ h]
  exact dfind_dset_eq _ _ scores

/-- `rrf_pass_head` with the head's patent number abstracted. -/
theorem rrf_pass_head_of (contrib : ℕ → ℚ) (r : SearchResult)
    (rest : List SearchResult) (rank : ℕ)
    (st : List (String × ℚ) × List (String × SearchResult)) (pn : String)
    (hpn : r.patent_number = pn)
    (h : pn ∉ rest.map (fun x => x.patent_number)) :
    dfind pn (rrf_pass contrib (r :: rest) rank st).1
      = some ((dfind pn st.1).getD 0 + contrib rank) := by
  subst hpn
  exact rrf_pass_head contrib r rest rank st h

/-- Fused score of a patent heading both source lists (and absent from
both tails). -/
theorem rrf_score_both_head (w : ℚ) (r1 r2 : SearchResult)
    (rest1 rest2 : List SearchResult) (p : String)
    (h1 : r1.patent_number = p) (h2 : r2.patent_number = p)
    (hn1 : p ∉ rest1.map (fun x => x.patent_number))
    (hn2 : p ∉ rest2.map (fun x => x.patent_number)) :
    rrf_score_of w (r1 :: rest1) (r2 :: rest2) p
      = (1 - w) / 61 + w / 61 := by
  unfold rrf_score_of rrf_scores
  rw [rrf_pass_head_of _ _ _ _ _ _ h2 hn2, rrf_pass_head_of _ _ _ _ _ _ h1 hn1]
  simp [dfind]

/-- Fused score of a patent heading only the full-text list. -/
theorem rrf_score_ft_only (w : ℚ) (s1 : SearchResult)
    (rest3 sem2 : List SearchResult) (q : String)
    (h1 : s1.patent_number = q)
    (hn : q ∉ rest3.map (fun x => x.patent_number))
    (hs : q ∉ sem2.map (fun x => x.patent_number)) :
    rrf_score_of w (s1 :: rest3) sem2 q = (1 - w) / 61 := by
  unfold rrf_score_of rrf_scores
  rw [rrf_pass_not_mem _ _ _ _ _ hs, rrf_pass_head_of _ _ _ _ _ _ h1 hn]
  simp [dfind]

/-- Fused score of a patent heading only the semantic list. -/
theorem rrf_score_sem_only (w : ℚ) (t1 : SearchResult)
    (rest4 ft3 : List SearchResult) (q : String)
    (h1 : t1.patent_number = q)
    (hn : q ∉ rest4.map (fun x => x.patent_number))
    (hf : q ∉ ft3.map (fun x => x.patent_number)) :
    rrf_score_of w ft3 (t1 :: rest4) q = w / 61 := by
  unfold rrf_score_of rrf_scores
  rw [rrf_pass_head_of _ _ _ _ _ _ h1 hn, rrf_pass_not_mem _ _ _ _ _ hf]
  simp [dfind]

/-! ### Claims about the search service -/

/-- Concrete result rows used in the C2 counterexample. -/
def resA : SearchResult := { (default : SearchResult) with patent_number := "A" }

def resB : SearchResult := { (default : SearchResult) with patent_number := "B" }

/-- C2 counterexample: at `semantic_weight = 0`, a patent at rank 0 in
both lists scores `1/61`, exactly the score of a patent at rank 0 in the
full-text list only — not strictly higher. -/
theorem c2_counterexample :
    rrf_score_of 0 [resA] [resA] "A" = rrf_score_of 0 [resB] [] "B" ∧
    ¬ rrf_score_of 0 [resA] [resA] "A" > rrf_score_of 0 [resB] [] "B" := by
  have hA : rrf_score_of 0 [resA] [resA] "A" = (1 - 0) / 61 + 0 / 61 :=
    rrf_score_both_head 0 resA resA [] [] "A" rfl rfl (by simp) (by simp)
  have hB : rrf_score_of 0 [resB] [] "B" = (1 - 0) / 61 :=
    rrf_score_ft_only 0 resB [] [] "B" rfl (by simp) (by simp)
  rw [hA, hB]
  norm_num

/-- C2 amended: for every `semantic_weight` strictly between 0 and 1, a
patent at rank 0 in both source lists receives a strictly higher fused
score than a patent at rank 0 in only the full-text list (of another
run) and than a patent at rank 0 in only the semantic list, since the
two per-list contributions are summed. -/
theorem c2_rrf_agreement_wins (w : ℚ) (hw0 : 0 < w) (hw1 : w < 1)
    (r1 r2 s1 t1 : SearchResult)
    (rest1 rest2 rest3 sem2 ft3 rest4 : List SearchResult)
    (p q1 q2 : String)
    (h1 : r1.patent_number = p) (h2 : r2.patent_number = p)
    (hn1 : p ∉ rest1.map (fun x => x.patent_number))
    (hn2 : p ∉ rest2.map (fun x => x.patent_number))
    (h3 : s1.patent_number = q1)
    (hn3 : q1 ∉ rest3.map (fun x => x.patent_number))
    (hs3 : q1 ∉ sem2.map (fun x => x.patent_number))
    (h4 : t1.patent_number = q2)
    (hn4 : q2 ∉ rest4.map (fun x => x.patent_number))
    (hf4 : q2 ∉ ft3.map (fun x => x.patent_number)) :
    rrf_score_of w (r1 :: rest1) (r2 :: rest2) p >
      rrf_score_of w (s1 :: rest3) sem2 q1 ∧
    rrf_score_of w (r1 :: rest1) (r2 :: rest2) p >
      rrf_score_of w ft3 (t1 :: rest4) q2 := by
  rw [rrf_score_both_head w r1 r2 rest1 rest2 p h1 h2 hn1 hn2,
    rrf_score_ft_only w s1 rest3 sem2 q1 h3 hn3 hs3,
    rrf_score_sem_only w t1 rest4 ft3 q2 h4 hn4 hf4]
  constructor <;> linarith

/-- Witness for C2's amended statement at `semantic_weight = 1/2`. -/
theorem c2_witness :
    rrf_score_of (1/2) [resA] [resA] "A" > rrf_score_of (1/2) [resB] [] "B" := by
  have h := c2_rrf_agreement_wins (1/2) (by norm_num) (by norm_num)
    resA resA resB resB [] [] [] [] [] [] "A" "B" "B"
    rfl rfl (by simp) (by simp) rfl (by simp) (by simp) rfl (by simp) (by simp)
  exact h.1

/-- C4: with zero embedded patents in the corpus, `hybrid_search` is
exactly `fulltext_search` at the same query, filters, page and per-page
arguments. -/
theorem c4_hybrid_fallback (db : List PatentRow)
    (sim : String → String → ℚ) (embedFn : String → List ℚ)
    (cosDist : List ℚ → List ℚ → ℚ) (query : String)
    (filters : Option SearchFilters) (page per_page : ℕ) (w : ℚ)
    (h : (db.filter (fun p => p.embedding.isSome)).length = 0) :
    hybrid_search db sim embedFn cosDist query filters page per_page w
      = fulltext_search db sim query filters page per_page := by
  simp [hybrid_search, h]

/-- Witness for C4 on an empty corpus. -/
theorem c4_witness :
    (([] : List PatentRow).filter (fun p => p.embedding.isSome)).length = 0 ∧
    hybrid_search [] (fun _ _ => 0) (fun _ => []) (fun _ _ => 0) "q" none
        1 20 (6/10)
      = fulltext_search [] (fun _ _ => 0) "q" none 1 20 :=
  ⟨rfl, c4_hybrid_fallback [] (fun _ _ => 0) (fun _ => []) (fun _ _ => 0)
    "q" none 1 20 (6/10) rfl⟩

/-! ## `src/services/citation_service.py`

`get_citation_network` (lines 18–98): breadth-first traversal of the
citation graph around a target patent.  The database is a list of
patents plus two citation-row maps: `forward id` lists the rows returned
by `_get_forward_citations` (each row is the citation's
`cited_patent_number` together with the resolved cited patent, when it
exists), `backward id` those of `_get_backward_citations` (the resolved
citing patent, `none` when unresolved). -/

/-- A patent as the citation service sees it. -/
structure CPatent where
  id : ℕ
  patent_number : String
deriving Repr, DecidableEq, Inhabited

structure CitGraph where
  patents : List CPatent
  forward : ℕ → List (String × Option CPatent)
  backward : ℕ → List (Option CPatent)

/-- The mutable traversal state: `nodes` dict keyed by patent number
(value: patent and the BFS level it was discovered at), `visited` id
set, `edges` list (the source keeps `edge_set` in sync with `edges`, so
one deduplicated list models both), and the `next_level` accumulator. -/
structure BfsState where
  nodes : List (String × (CPatent × ℕ))
  visited : List ℕ
  edges : List (String × String × String)
  next_level : List CPatent
deriving Repr

/-- Forward-citation inner loop (citation_service.py lines 51–68). -/
def stepForward (maxN level : ℕ) (pn : String) :
    List (String × Option CPatent) → BfsState → BfsState
  | [], st => st
  | (citedNum, citedOpt) :: rest, st =>
    if st.nodes.length ≥ maxN then st
    else
      let st1 :=
        match citedOpt with
        | some cp =>
          if cp.id ∉ st.visited then
            { st with
              nodes := dset cp.patent_number (cp, level) st.nodes,
              visited := cp.id :: st.visited,
              next_level := st.next_level ++ [cp] }
          else st
        | none => st
      let target_num :=
        match citedOpt with
        | some cp => cp.patent_number
        | none => citedNum
      let edge := (pn, target_num, "cites")
      let st2 := if edge ∈ st1.edges then st1
        else { st1 with edges := st1.edges ++ [edge] }
      stepForward maxN level pn rest st2

/-- Backward-citation inner loop (citation_service.py lines 70–87). -/
def stepBackward (maxN level : ℕ) (pn : String) :
    List (Option CPatent) → BfsState → BfsState
  | [], st => st
  | citingOpt :: rest, st =>
    if st.nodes.length ≥ maxN then st
    else
      let st1 :=
        match citingOpt with
        | some cp =>
          if cp.id ∉ st.visited then
            { st with
              nodes := dset cp.patent_number (cp, level) st.nodes,
              visited := cp.id :: st.visited,
              next_level := st.next_level ++ [cp] }
          else st
        | none => st
      let source_num :=
        match citingOpt with
        | some cp => cp.patent_number
        | none => "unknown"
      let edge := (source_num, pn, "cited_by")
      let st2 := if edge ∈ st1.edges then st1
        else { st1 with edges := st1.edges ++ [edge] }
      stepBackward maxN level pn rest st2

/-- Per-patent body of the level loop: forward citations, then backward. -/
def processPatent (G : CitGraph) (maxN level : ℕ) (p : CPatent)
    (st : BfsState) : BfsState :=
  stepBackward maxN level p.patent_number (G.backward p.id)
    (stepForward maxN level p.patent_number (G.forward p.id) st)

def processLevel (G : CitGraph) (maxN level : ℕ) (ps : List CPatent)
    (st : BfsState) : BfsState :=
  ps.foldl (fun st p => processPatent G maxN level p st) st

/-- `for level in range(1, depth + 1)` with the budget check and early
break, recursing on the remaining level count. -/
def bfsLevels (G : CitGraph) (maxN : ℕ) :
    ℕ → ℕ → List CPatent → BfsState → BfsState
  | 0, _, _, st => st
  | fuel + 1, level, current, st =>
    let st0 := { st with next_level := [] }
    if st0.nodes.length ≥ maxN then st0
    else
      let st1 := processLevel G maxN level current st0
      bfsLevels G maxN fuel (level + 1) st1.next_level st1

def find_patent (G : CitGraph) (pn : String) : Option CPatent :=
  G.patents.find? (fun p => p.patent_number == pn)

/-- The returned network dict; the source's `{"error": ...}` return for a
missing target is `none`. -/
structure CitationNetwork where
  center : String
  nodes : List (String × (CPatent × ℕ))
  edges : List (String × String × String)
  total_nodes : ℕ
  total_edges : ℕ
  depth : ℕ
deriving Repr

/-- `get_citation_network` (citation_service.py lines 18–98). -/
def get_citation_network (G : CitGraph) (patent_number : String)
    (depth max_nodes : ℕ) : Option CitationNetwork :=
  match find_patent G patent_number with
  | none => none
  | some target =>
    let st0 : BfsState :=
      { nodes := [(patent_number, (target, 0))],
        visited := [target.id],
        edges := [],
        next_level := [] }
    let fin := bfsLevels G max_nodes depth 1 [target] st0
    some { center := patent_number, nodes := fin.nodes, edges := fin.edges,
           total_nodes := fin.nodes.length,
           total_edges := fin.edges.length, depth := depth }

/-! ### Node-budget invariant -/

theorem dset_length_le {β : Type} (k : String) (v : β)
    (d : List (String × β)) : (dset k v d).length ≤ d.length + 1 := by
  induction d with
  | nil => simp [dset]
  | cons hd t ih =>
    obtain ⟨k', v'⟩ := hd
    by_cases h : k' = k
    · simp [dset, h]
    · simp only [dset, if_neg h, List.length_cons]
      omega

/-- The edge-dedup update never touches `nodes`. -/
theorem edgeUpdate_nodes (st1 : BfsState)
    (edge : String × String × String) :
    (if edge ∈ st1.edges then st1
      else { st1 with edges := st1.edges ++ [edge] }).nodes = st1.nodes := by
  split <;> rfl

/-- The guarded node insertion grows the dict by at most one entry. -/
theorem insertNode_nodes_le (maxN level : ℕ) (cp : CPatent)
    (st : BfsState) (hlt : st.nodes.length < maxN) :
    ((if cp.id ∉ st.visited then
        { st with
          nodes := dset cp.patent_number (cp, level) st.nodes,
          visited := cp.id :: st.visited,
          next_level := st.next_level ++ [cp] }
      else st) : BfsState).nodes.length ≤ maxN := by
  by_cases hv : cp.id ∉ st.visited
  · rw [if_pos hv]
    have := dset_length_le cp.patent_number (cp, level) st.nodes
    simp only
    omega
  · rw [if_neg hv]
    omega

theorem stepForward_nodes_le (maxN level : ℕ) (pn : String)
    (rows : List (String × Option CPatent)) :
    ∀ st : BfsState, st.nodes.length ≤ maxN →
      (stepForward maxN level pn rows st).nodes.length ≤ maxN := by
  induction rows with
  | nil =>
    intro st h
    exact h
  | cons row rest ih =>
    intro st h
    obtain ⟨citedNum, citedOpt⟩ := row
    cases citedOpt with
    | none =>
      rw [stepForward]
      by_cases hge : st.nodes.length ≥ maxN
      · rw [if_pos hge]
        exact h
      · rw [if_neg hge]
        apply ih
        rw [edgeUpdate_nodes]
        exact h
    | some cp =>
      rw [stepForward]
      by_cases hge : st.nodes.length ≥ maxN
      · rw [if_pos hge]
        exact h
      · rw [if_neg hge]
        have hlt : st.nodes.length < maxN := lt_of_not_ge hge
        apply ih
        rw [edgeUpdate_nodes]
        exact insertNode_nodes_le maxN level cp st hlt

theorem stepBackward_nodes_le (maxN level : ℕ) (pn : String)
    (rows : List (Option CPatent)) :
    ∀ st : BfsState, st.nodes.length ≤ maxN →
      (stepBackward maxN level pn rows st).nodes.length ≤ maxN := by
  induction rows with
  | nil =>
    intro st h
    exact h
  | cons citingOpt rest ih =>
    intro st h
    cases citingOpt with
    | none =>
      rw [stepBackward]
      by_cases hge : st.nodes.length ≥ maxN
      · rw [if_pos hge]
        exact h
      · rw [if_neg hge]
        apply ih
        rw [edgeUpdate_nodes]
        exact h
    | some cp =>
      rw [stepBackward]
      by_cases hge : st.nodes.length ≥ maxN
      · rw [if_pos hge]
        exact h
      · rw [if_neg hge]
        have hlt : st.nodes.length < maxN := lt_of_not_ge hge
        apply ih
        rw [edgeUpdate_nodes]
        exact insertNode_nodes_le maxN level cp st hlt

theorem processPatent_nodes_le (G : CitGraph) (maxN level : ℕ)
    (p : CPatent) (st : BfsState) (h : st.nodes.length ≤ maxN) :
    (processPatent G maxN level p st).nodes.length ≤ maxN :=
  stepBackward_nodes_le maxN level p.patent_number (G.backward p.id) _
    (stepForward_nodes_le maxN level p.patent_number (G.forward p.id) st h)

theorem processLevel_nodes_le (G : CitGraph) (maxN level : ℕ)
    (ps : List CPatent) :
    ∀ st : BfsState, st.nodes.length ≤ maxN →
      (processLevel G maxN level ps st).nodes.length ≤ maxN := by
  induction ps with
  | nil =>
    intro st h
    exact h
  | cons p rest ih =>
    intro st h
    exact ih _ (processPatent_nodes_le G maxN level p st h)

theorem bfsLevels_nodes_le (G : CitGraph) (maxN : ℕ) (fuel : ℕ) :
    ∀ level (current : List CPatent) (st : BfsState),
      st.nodes.length ≤ maxN →
      (bfsLevels G maxN fuel level current st).nodes.length ≤ maxN := by
  induction fuel with
  | zero =>
    intro level current st h
    exact h
  | succ n ih =>
    intro level current st h
    rw [bfsLevels]
    by_cases hge : ({ st with next_level := ([] : List CPatent) } :
        BfsState).nodes.length ≥ maxN
    · rw [if_pos hge]
      exact h
    · rw [if_neg hge]
      exact ih _ _ _ (processLevel_nodes_le G maxN _ current _ h)

/-- C9 amended: for `max_nodes ≥ 1` the returned network never exceeds
the node budget (the target node is inserted before the budget is first
consulted, so `max_nodes = 0` still yields one node). -/
theorem c9_max_nodes_bound (G : CitGraph) (pn : String)
    (depth max_nodes : ℕ) (hmax : 1 ≤ max_nodes) (net : CitationNetwork)
    (h : get_citation_network G pn depth max_nodes = some net) :
    net.total_nodes ≤ max_nodes := by
  unfold get_citation_network at h
  cases hf : find_patent G pn with
  | none =>
    rw [hf] at h
    exact absurd h (by simp)
  | some target =>
    rw [hf] at h
    have hb := bfsLevels_nodes_le G max_nodes depth 1 [target]
      { nodes := [(pn, (target, 0))], visited := [target.id],
        edges := [], next_level := [] } (by simpa using hmax)
    have hnet : net.total_nodes =
        (bfsLevels G max_nodes depth 1 [target]
          { nodes := [(pn, (target, 0))], visited := [target.id],
            edges := [], next_level := [] }).nodes.length := by
      cases h
      rfl
    rw [hnet]
    exact hb

/-- One-patent graph with no citations, for the C9 counterexample and
witness. -/
def trivialGraph : CitGraph :=
  { patents := [⟨1, "X"⟩], forward := fun _ => [], backward := fun _ => [] }

/-- C9 counterexample: with `max_nodes = 0` the returned network still
contains the target node, so it has 1 > 0 nodes — the budget is
overshot. -/
theorem c9_counterexample :
    (get_citation_network trivialGraph "X" 2 0).map
        (fun n => n.total_nodes) = some 1 ∧
    ¬ (1 : ℕ) ≤ 0 := by
  exact ⟨rfl, by decide⟩

/-- Witness for C9's amended bound on the one-patent graph with
`max_nodes = 1`. -/
theorem c9_witness :
    ∃ net, get_citation_network trivialGraph "X" 2 1 = some net ∧
      net.total_nodes ≤ 1 := by
  obtain ⟨net, hn⟩ : ∃ net,
      get_citation_network trivialGraph "X" 2 1 = some net := ⟨_, rfl⟩
  exact ⟨net, hn, c9_max_nodes_bound trivialGraph "X" 2 1 (by decide) net hn⟩

end PatentIntel
